import Mathlib

/-!
Shallow embedding of the tab/pane state machine of the goread terminal feed
reader: the Feed tab (`RssFeedTab`, from the `feed` package) and the Category
tab (`category.Model`, from `internal/model/tab/category/category.go`),
together with the shared tab contract (`internal/model/tab/tab.go`).

External collaborators (the bubbles list and viewport widgets, the spinner)
are modelled at their interface boundary; repository code that is not part of
the sources at hand (the `backend` message type and the `simplelist` widget)
is modelled from the specification, as marked on each definition.

Machine integers: all dimensions and indices in the source are Go `int`s that
stay small and non-negative on every path the claims touch; window dimensions
and list indices are embedded as `Nat` (Go `/` and `%` agree with `Nat`
division and modulus on non-negative operands), while widget widths and
heights, which the source computes by subtraction that could go negative, are
embedded as `Int`.
-/

/-- Tab kinds, from `internal/model/tab/tab.go` (`Welcome`, `Feed`,
`Category`). -/
inductive TabType where
  | welcome
  | feed
  | category
deriving DecidableEq, Repr

/-- Pane selector of the Feed tab, from the `SelectedPane` constants
`articlesList` and `articlesPreview`. -/
inductive SelectedPane where
  | articlesList
  | articlesPreview
deriving DecidableEq, Repr

/-- Display item. The Feed tab stores `simpleList.ListItem` values (identity
via `FilterValue`, a short description, and long-form body via `GetContent`);
the Category tab's `simplelist.Item` exposes `FilterValue` and `Description`.
Both are embedded as one record; `name` is the filter/identity value. -/
structure ListItem where
  name : String
  desc : String
  content : String
deriving DecidableEq, Repr

/-- Modelled from the spec: `simpleList.ListItem.WrapDescription` lives in the
repository's `internal/list` package, which is not among the sources; the spec
says the list is constructed "with wrapped item descriptions sized to list
width". Embedded as a character-level re-flow of the description to the given
width; the identity and body are untouched. -/
def wrapText (width : Nat) (s : String) : String :=
  if width = 0 then s
  else (s.toList.foldl
    (fun (acc : String × Nat) c =>
      if acc.2 < width then (acc.1.push c, acc.2 + 1)
      else ((acc.1.push '\n').push c, 1))
    ("", 0)).1

/-- Wrapped copy of an item, see `wrapText`. -/
def ListItem.wrapDescription (it : ListItem) (width : Nat) : ListItem :=
  { it with desc := wrapText width it.desc }

/-- Modelled from the spec: the `backend` package is not among the sources.
The spec describes the completion event as `FetchSuccess{title, items}`
("the eventual success event must carry a matching title"); the sources only
ever read `msg.Items`. -/
structure FetchSuccessMessage where
  title : String
  items : List ListItem
deriving DecidableEq, Repr

/-- Input events delivered to a tab's `Update`: a fetch-success message, a key
press (identified by its `msg.String()` value, as the source switches on it),
or any other message (spinner ticks and the like, the `default` arm). -/
inductive Msg where
  | fetchSuccess (fm : FetchSuccessMessage)
  | key (k : String)
  | other
deriving DecidableEq, Repr

/-- Item kinds of the backend CRUD interface (`backend.Feed` is the only one
the sources use). -/
inductive BackendKind where
  | feed
  | category
deriving DecidableEq, Repr

/-- Outgoing commands (`tea.Cmd` values the tabs return): the spinner tick,
the new-tab request from `tab.NewTab`, and the backend CRUD requests
`backend.NewItem` / `backend.DeleteItem`. -/
inductive Cmd where
  | spinnerTick
  | newTab (title : String) (ttype : TabType)
  | newItem (kind : BackendKind) (isNew : Bool) (path : List String)
      (payload : Option (List String))
  | deleteItem (kind : BackendKind) (name : String)
deriving DecidableEq, Repr

/-- Container window dimensions, the `style.WindowWidth` / `style.WindowHeight`
globals read by the Feed tab. -/
structure Window where
  width : Nat
  height : Nat
deriving DecidableEq, Repr

/-- External bubbles `list.Model` at its interface boundary: the ordered items,
the selection index, the constructor dimensions, and the display flags the
source sets. `update` moves the cursor on navigation keys and leaves the model
(in particular its item set) unchanged on every other message. -/
structure BList where
  items : List ListItem
  index : Nat
  width : Int
  height : Int
  showHelp : Bool
  showTitle : Bool
  showStatusBar : Bool
deriving DecidableEq, Repr

/-- Constructor `list.New(items, delegate, width, height)`; the delegate is
presentation-only and not part of the model. -/
def BList.new (items : List ListItem) (width height : Int) : BList :=
  { items := items, index := 0, width := width, height := height,
    showHelp := true, showTitle := true, showStatusBar := true }

/-- Selected item, `list.Model.SelectedItem`: `none` when the index is out of
range (bubbles returns a nil interface there). -/
def BList.selectedItem (l : BList) : Option ListItem :=
  l.items[l.index]?

/-- External widget update: cursor movement on navigation keys, identity on
everything else; item set never changes. -/
def BList.update (l : BList) (msg : Msg) : BList :=
  match msg with
  | Msg.key "up" => { l with index := l.index - 1 }
  | Msg.key "down" => { l with index := min (l.index + 1) (l.items.length - 1) }
  | _ => l

/-- External bubbles `viewport.Model` at its interface boundary: dimensions,
content, vertical scroll offset. -/
structure Viewport where
  width : Int
  height : Int
  content : String
  yOffset : Nat
deriving DecidableEq, Repr

/-- Constructor `viewport.New(width, height)`. -/
def Viewport.new (width height : Int) : Viewport :=
  { width := width, height := height, content := "", yOffset := 0 }

/-- Setter `viewport.Model.SetContent`. -/
def Viewport.setContent (v : Viewport) (c : String) : Viewport :=
  { v with content := c }

/-- External widget update: scrolling on navigation keys, identity on
everything else. -/
def Viewport.update (v : Viewport) (msg : Msg) : Viewport :=
  match msg with
  | Msg.key "up" => { v with yOffset := v.yOffset - 1 }
  | Msg.key "down" => { v with yOffset := v.yOffset + 1 }
  | _ => v

/-- Feed tab state, from the `RssFeedTab` struct. The external spinner model
is embedded as its tick count; the `readerFunc` closure (consulted only by
`Init`) and the unused `viewedItem` / `content` fields carry no transition
behaviour and are omitted from the state. -/
structure RssFeedTab where
  title : String
  index : Int
  loaded : Bool
  loadingSpinner : Nat
  list : BList
  isViewportOpen : Bool
  viewport : Viewport
  selected : SelectedPane
deriving DecidableEq, Repr

/-- Constructor `feed.New(title, index, readerFunc)`: the remaining fields take
their Go zero values. -/
def RssFeedTab.new (title : String) (index : Int) : RssFeedTab :=
  { title := title, index := index, loaded := false, loadingSpinner := 0,
    list := BList.new [] 0 0, isViewportOpen := false,
    viewport := Viewport.new 0 0, selected := SelectedPane.articlesList }

/-- Embeds `RssFeedTab.loadTab`: computes `listWidth = WindowWidth / 4` and
`viewportWidth = WindowWidth - listWidth - 4`, wraps every item's description
to the list width, constructs the list (help/title/status bar hidden) and the
viewport, both with height `WindowHeight - 5`, and sets `loaded`. The delegate
styling is presentation-only and not part of the model. -/
def RssFeedTab.loadTab (r : RssFeedTab) (win : Window) (items : List ListItem) :
    RssFeedTab :=
  let listWidth : Nat := win.width / 4
  let viewportWidth : Int := (win.width : Int) - (listWidth : Int) - 4
  let wrapped := items.map (fun it => it.wrapDescription listWidth)
  { r with
    list := { BList.new wrapped (listWidth : Int) ((win.height : Int) - 5) with
              showHelp := false, showTitle := false, showStatusBar := false },
    viewport := Viewport.new viewportWidth ((win.height : Int) - 5),
    loaded := true }

/-- Embeds the code after the message switch in `RssFeedTab.Update` (the
fall-through: forward the message to the focused pane; the list only updates
once loaded). -/
def RssFeedTab.updateFocused (r : RssFeedTab) (msg : Msg) :
    Option (RssFeedTab × Option Cmd) :=
  if r.selected = SelectedPane.articlesList then
    if r.loaded then some ({ r with list := r.list.update msg }, none)
    else some (r, none)
  else
    some ({ r with viewport := r.viewport.update msg }, none)

/-- Embeds `RssFeedTab.Update`. The result is `none` exactly where the Go code
panics: the unchecked type assertion
`r.list.SelectedItem().(simpleList.ListItem)` on the nil interface returned by
an out-of-range selection. -/
def RssFeedTab.update (r : RssFeedTab) (win : Window) (msg : Msg) :
    Option (RssFeedTab × Option Cmd) :=
  match msg with
  | Msg.fetchSuccess fm =>
      if r.loaded = false ∧ 0 < win.width ∧ 0 < win.height then
        some (r.loadTab win fm.items, none)
      else
        r.updateFocused msg
  | Msg.key k =>
      if k = "enter" then
        if r.loaded = false then some (r, none)
        else
          match r.list.selectedItem with
          | none => none
          | some it =>
              let r := { r with viewport := r.viewport.setContent it.content }
              let r := if r.isViewportOpen = false then
                  { r with isViewportOpen := true }
                else r
              some (r, none)
      else if k = "left" ∨ k = "right" then
        if r.isViewportOpen = false then some (r, none)
        else if r.selected = SelectedPane.articlesPreview then
          some ({ r with selected := SelectedPane.articlesList }, none)
        else
          some ({ r with selected := SelectedPane.articlesPreview }, none)
      else
        r.updateFocused msg
  | Msg.other =>
      if r.loaded = false then
        some ({ r with loadingSpinner := r.loadingSpinner + 1 },
              some Cmd.spinnerTick)
      else
        r.updateFocused msg

/-- Key binding at its interface boundary (`key.Binding`): the set of key
strings it is bound to; `key.Matches(msg, b)` is membership of `msg.String()`. -/
def Binding := List String

/-- Keymap of the Category tab, from `category.Keymap`. -/
structure Keymap where
  closeTab : Binding
  cycleTabs : Binding
  selectFeed : Binding
  newFeed : Binding
  editFeed : Binding
  deleteFeed : Binding

/-- Default key bindings, from `category.DefaultKeymap`. -/
def DefaultKeymap : Keymap :=
  { closeTab := ["c", "ctrl+w"]
    cycleTabs := ["tab"]
    selectFeed := ["enter"]
    newFeed := ["n", "ctrl+n"]
    editFeed := ["e", "ctrl+e"]
    deleteFeed := ["d", "ctrl+d"] }

/-- Embeds `key.Matches`: the key string is one of the binding's keys. -/
def keyMatches (k : String) (b : Binding) : Bool :=
  List.contains b k

/-- Modelled from the spec: the repository's `internal/model/simplelist`
widget is not among the sources. The spec's List Widget is an "ordered,
keyboard-navigable sequence of selectable items" supporting "programmatic
selection index, item replacement, and emptiness query"; replacement keeps the
selection in range. The colorscheme argument of its constructor is
presentation-only and not part of the model. -/
structure SimpleList where
  title : String
  height : Nat
  spinner : Bool
  items : List ListItem
  index : Nat
deriving DecidableEq, Repr

/-- Modelled from the spec: constructor `simplelist.New(colors, title, height,
spinner)`, starting empty with the cursor at 0. -/
def SimpleList.new (title : String) (height : Nat) (spinner : Bool) :
    SimpleList :=
  { title := title, height := height, spinner := spinner, items := [],
    index := 0 }

/-- Modelled from the spec: item replacement, clamping the cursor in range. -/
def SimpleList.setItems (l : SimpleList) (its : List ListItem) : SimpleList :=
  { l with items := its, index := min l.index (its.length - 1) }

/-- Modelled from the spec: emptiness query. -/
def SimpleList.isEmpty (l : SimpleList) : Bool :=
  l.items.isEmpty

/-- Modelled from the spec: the currently selected item. -/
def SimpleList.selectedItem (l : SimpleList) : ListItem :=
  l.items.getD l.index { name := "", desc := "", content := "" }

/-- Modelled from the spec: programmatic selection index. -/
def SimpleList.setIndex (l : SimpleList) (i : Nat) : SimpleList :=
  { l with index := i }

/-- Modelled from the spec: height setter used by `SetSize`. -/
def SimpleList.setHeight (l : SimpleList) (h : Nat) : SimpleList :=
  { l with height := h }

/-- Modelled from the spec: "any other key that matches an existing item's
declared shortcut (a widget-level lookup by key string)" — a digit key selects
the item at that position. -/
def SimpleList.getItem (l : SimpleList) (k : String) : Option ListItem :=
  match k.toNat? with
  | some n => if 1 ≤ n then l.items[n - 1]? else none
  | none => none

/-- Modelled from the spec: widget update, cursor movement on navigation keys
and identity on everything else; the item set never changes. -/
def SimpleList.update (l : SimpleList) (msg : Msg) :
    SimpleList × Option Cmd :=
  match msg with
  | Msg.key "up" => ({ l with index := l.index - 1 }, none)
  | Msg.key "down" =>
      ({ l with index := min (l.index + 1) (l.items.length - 1) }, none)
  | _ => (l, none)

/-- Category tab state, from `category.Model`. The colorscheme, the help
model and the `reader` closure (consulted only by `New`, `ShowHelp` and
`Init`) carry no transition behaviour and are omitted; the `keymap` field is
set to `DefaultKeymap` at construction and never reassigned, so `update`
consults that constant directly. -/
structure CategoryModel where
  width : Nat
  height : Nat
  title : String
  loaded : Bool
  list : SimpleList
deriving DecidableEq, Repr

/-- Constructor `category.New(colors, width, height, title, reader)`. -/
def CategoryModel.new (width height : Nat) (title : String) : CategoryModel :=
  { width := width, height := height, title := title, loaded := false,
    list := SimpleList.new "" 0 false }

/-- Embeds `category.Model.Update`. Every handled branch returns explicitly;
the unhandled ones fall through to `m.list.Update(msg)`. -/
def CategoryModel.update (m : CategoryModel) (msg : Msg) :
    CategoryModel × Option Cmd :=
  match msg with
  | Msg.fetchSuccess fm =>
      let m := if m.loaded = false then
          { m with list := SimpleList.new m.title m.height false,
                   loaded := true }
        else m
      ({ m with list := m.list.setItems fm.items }, none)
  | Msg.key k =>
      if m.loaded = false then (m, none)
      else if keyMatches k DefaultKeymap.selectFeed then
        if m.list.isEmpty = false then
          (m, some (Cmd.newTab m.list.selectedItem.name TabType.feed))
        else (m, none)
      else if keyMatches k DefaultKeymap.newFeed then
        (m, some (Cmd.newItem BackendKind.feed true [m.title] none))
      else if keyMatches k DefaultKeymap.editFeed then
        if m.list.isEmpty then (m, none)
        else
          (m, some (Cmd.newItem BackendKind.feed false
            [m.title, m.list.selectedItem.name]
            (some [m.list.selectedItem.name, m.list.selectedItem.desc])))
      else if keyMatches k DefaultKeymap.deleteFeed then
        if m.list.isEmpty = false then
          let delItemName := m.list.selectedItem.name
          let itemCount := m.list.items.length
          let m := if itemCount = 1 then { m with list := m.list.setIndex 0 }
            else
              { m with list := m.list.setIndex (m.list.index % (itemCount - 1)) }
          (m, some (Cmd.deleteItem BackendKind.feed delItemName))
        else
          let lc := m.list.update msg
          ({ m with list := lc.1 }, lc.2)
      else
        match m.list.getItem k with
        | some item => (m, some (Cmd.newTab item.name TabType.feed))
        | none =>
            let lc := m.list.update msg
            ({ m with list := lc.1 }, lc.2)
  | Msg.other =>
      let lc := m.list.update msg
      ({ m with list := lc.1 }, lc.2)

/-- Sample items and states used by the concrete witnesses below. -/
def sampleItem : ListItem :=
  { name := "A1", desc := "first article", content := "body one" }

def sampleItem2 : ListItem :=
  { name := "A2", desc := "second article", content := "body two" }

def sampleWin : Window := { width := 100, height := 30 }

def feedTab0 : RssFeedTab := RssFeedTab.new "A" 0

def feedTabLoaded : RssFeedTab :=
  feedTab0.loadTab sampleWin [sampleItem, sampleItem2]

def feedTabOpen : RssFeedTab := { feedTabLoaded with isViewportOpen := true }

def catItem (n : Nat) : ListItem :=
  { name := "feed" ++ toString n, desc := "desc" ++ toString n, content := "" }

def catTab0 : CategoryModel := CategoryModel.new 100 30 "Cat"

def catTab3 : CategoryModel :=
  (catTab0.update (Msg.fetchSuccess
    { title := "Cat", items := [catItem 1, catItem 2, catItem 3] })).1

def catTab3i2 : CategoryModel :=
  { catTab3 with list := catTab3.list.setIndex 2 }

def catTab1 : CategoryModel :=
  (catTab0.update (Msg.fetchSuccess
    { title := "Cat", items := [catItem 1] })).1

def catTabEmpty : CategoryModel :=
  (catTab0.update (Msg.fetchSuccess { title := "Cat", items := [] })).1

/-- C1: a fetch-success event delivered to a Feed tab while `loaded = false`
with both window dimensions nonzero sets `loaded = true` with the list pane
selected and the preview closed, constructing the list with width
`WindowWidth / 4` and the viewport with width
`WindowWidth - WindowWidth / 4 - 4`, both with height `WindowHeight - 5`;
with either dimension zero the event leaves the state unchanged and the tab
stays in `Loading`. -/
theorem feed_load_on_fetch (win : Window) (r : RssFeedTab)
    (fm : FetchSuccessMessage)
    (hl : r.loaded = false) (hv : r.isViewportOpen = false)
    (hs : r.selected = SelectedPane.articlesList) :
    (0 < win.width → 0 < win.height →
      r.update win (Msg.fetchSuccess fm) =
        some (r.loadTab win fm.items, none) ∧
      (r.loadTab win fm.items).loaded = true ∧
      (r.loadTab win fm.items).selected = SelectedPane.articlesList ∧
      (r.loadTab win fm.items).isViewportOpen = false ∧
      (r.loadTab win fm.items).list.width = ((win.width / 4 : Nat) : Int) ∧
      (r.loadTab win fm.items).viewport.width =
        (win.width : Int) - ((win.width / 4 : Nat) : Int) - 4 ∧
      (r.loadTab win fm.items).list.height = (win.height : Int) - 5 ∧
      (r.loadTab win fm.items).viewport.height = (win.height : Int) - 5) ∧
    ((win.width = 0 ∨ win.height = 0) →
      r.update win (Msg.fetchSuccess fm) = some (r, none)) := by
  constructor
  · intro hw hh
    refine ⟨?_, ?_, ?_, ?_, ?_, ?_, ?_, ?_⟩ <;>
      simp [RssFeedTab.update, RssFeedTab.loadTab, BList.new, Viewport.new,
        hl, hw, hh, hv, hs]
  · intro h0
    rcases h0 with h | h <;>
      simp [RssFeedTab.update, RssFeedTab.updateFocused, hs, hl, h]

/-- C1 witness: at window (100, 30) loading gives list width 25, viewport
width 71, both heights 25, list pane selected, preview closed. -/
theorem feed_load_on_fetch_witness :
    feedTab0.update sampleWin
        (Msg.fetchSuccess { title := "A", items := [sampleItem] }) =
      some (feedTab0.loadTab sampleWin [sampleItem], none) ∧
    (feedTab0.loadTab sampleWin [sampleItem]).loaded = true ∧
    (feedTab0.loadTab sampleWin [sampleItem]).selected =
      SelectedPane.articlesList ∧
    (feedTab0.loadTab sampleWin [sampleItem]).isViewportOpen = false ∧
    (feedTab0.loadTab sampleWin [sampleItem]).list.width = 25 ∧
    (feedTab0.loadTab sampleWin [sampleItem]).viewport.width = 71 ∧
    (feedTab0.loadTab sampleWin [sampleItem]).list.height = 25 ∧
    (feedTab0.loadTab sampleWin [sampleItem]).viewport.height = 25 := by
  have h := (feed_load_on_fetch sampleWin feedTab0
    { title := "A", items := [sampleItem] } rfl rfl rfl).1
    (by decide) (by decide)
  simpa using h

/-- C2 counterexample: a Feed tab titled "A" (and a Category tab titled "Cat")
accepts a fetch-success event titled "B": the state changes (`loaded` becomes
true), contradicting "the tab does not accept the event: Update leaves the
tab's state unchanged". -/
theorem fetch_title_not_checked_cex :
    ("B" = feedTab0.title) = False ∧ feedTab0.loaded = false ∧
    ((feedTab0.update sampleWin
        (Msg.fetchSuccess { title := "B", items := [sampleItem] })).map
      (fun p => p.1.loaded)) = some true ∧
    ("B" = catTab0.title) = False ∧ catTab0.loaded = false ∧
    (catTab0.update
        (Msg.fetchSuccess { title := "B", items := [catItem 1] })).1.loaded
      = true := by
  refine ⟨by decide, rfl, by decide, by decide, rfl, by decide⟩

/-- C2 amended: neither tab's Update consults the fetch-success event's title
at all — the result of Update is identical for any two events that carry the
same items, whatever their titles (title-based routing is the container's
responsibility, not enforced by the tabs). -/
theorem fetch_title_ignored (win : Window) (r : RssFeedTab)
    (m : CategoryModel) (t t' : String) (items : List ListItem) :
    r.update win (Msg.fetchSuccess { title := t, items := items }) =
      r.update win (Msg.fetchSuccess { title := t', items := items }) ∧
    m.update (Msg.fetchSuccess { title := t, items := items }) =
      m.update (Msg.fetchSuccess { title := t', items := items }) :=
  ⟨rfl, rfl⟩

/-- C3: a fetch-success event delivered to an already-loaded Feed tab is
ignored: Update returns the state unchanged (so `loaded` stays true and the
list's item set is unchanged) with no command. -/
theorem feed_second_fetch_ignored (win : Window) (r : RssFeedTab)
    (fm : FetchSuccessMessage) (h : r.loaded = true) :
    r.update win (Msg.fetchSuccess fm) = some (r, none) := by
  obtain ⟨ti, ix, ld, sp, ls, vo, vp, sel⟩ := r
  cases h
  cases sel <;>
    simp [RssFeedTab.update, RssFeedTab.updateFocused,
      BList.update, Viewport.update]

/-- C3 witness: a loaded Feed tab ignores a second fetch-success event. -/
theorem feed_second_fetch_ignored_witness :
    feedTabLoaded.update sampleWin
        (Msg.fetchSuccess { title := "A", items := [sampleItem] }) =
      some (feedTabLoaded, none) :=
  feed_second_fetch_ignored sampleWin feedTabLoaded
    { title := "A", items := [sampleItem] } rfl

/-- C7: every single Update step of a Feed tab preserves both latches: a tab
with `loaded = true` stays loaded (no transition back to Loading), and a tab
with `isViewportOpen = true` keeps the split open (it never auto-closes). -/
theorem feed_latches (win : Window) (r : RssFeedTab) (msg : Msg)
    (r' : RssFeedTab) (c : Option Cmd)
    (h : r.update win msg = some (r', c)) :
    (r.loaded = true → r'.loaded = true) ∧
    (r.isViewportOpen = true → r'.isViewportOpen = true) := by
  obtain ⟨ti, ix, ld, sp, ls, vo, vp, sel⟩ := r
  cases msg <;> cases ld <;> cases vo <;> cases sel <;>
    simp only [RssFeedTab.update, RssFeedTab.updateFocused,
      RssFeedTab.loadTab] at h
  all_goals repeat' split at h
  all_goals (try exact Option.noConfusion h)
  all_goals simp only [Option.some.injEq, Prod.mk.injEq] at h
  all_goals obtain ⟨he, hc⟩ := h
  all_goals subst he
  all_goals simp

/-- C7 witness: the latches hold at a concrete loaded, split-open tab. -/
theorem feed_latches_witness :
    feedTabOpen.loaded = true ∧ feedTabOpen.isViewportOpen = true :=
  ⟨(feed_latches sampleWin feedTabOpen Msg.other feedTabOpen none rfl).1 rfl,
   (feed_latches sampleWin feedTabOpen Msg.other feedTabOpen none rfl).2 rfl⟩

/-- C8: a "left" or "right" key is a no-op (state unchanged, no command) while
the split view is not open; once it is open, each such key toggles the focused
pane — from the list pane, focus moves to the preview pane, and vice versa. -/
theorem feed_pane_toggle (win : Window) (r : RssFeedTab) (k : String)
    (hk : k = "left" ∨ k = "right") :
    (r.isViewportOpen = false → r.update win (Msg.key k) = some (r, none)) ∧
    (r.isViewportOpen = true → r.selected = SelectedPane.articlesList →
      r.update win (Msg.key k) =
        some ({ r with selected := SelectedPane.articlesPreview }, none)) ∧
    (r.isViewportOpen = true → r.selected = SelectedPane.articlesPreview →
      r.update win (Msg.key k) =
        some ({ r with selected := SelectedPane.articlesList }, none)) := by
  have hne : ¬k = "enter" := by rcases hk with h | h <;> simp [h]
  refine ⟨fun h1 => ?_, fun h1 h2 => ?_, fun h1 h2 => ?_⟩
  · simp [RssFeedTab.update, hne, hk, h1]
  · simp [RssFeedTab.update, hne, hk, h1, h2]
  · simp [RssFeedTab.update, hne, hk, h1, h2]

/-- C8 witness: from a split-open tab focused on the list, "right" moves the
focus to the preview pane. -/
theorem feed_pane_toggle_witness :
    feedTabOpen.update sampleWin (Msg.key "right") =
      some ({ feedTabOpen with selected := SelectedPane.articlesPreview },
        none) :=
  (feed_pane_toggle sampleWin feedTabOpen "right" (Or.inr rfl)).2.1 rfl rfl

/-- C9: on a loaded Feed tab whose list has a selected item, "enter" sets the
viewport content to that item's long-form body and opens the split, without
changing which pane is focused (this holds for any current selection, so a
second "enter" on a different selection replaces the content again); "enter"
before `loaded = true` leaves the tab unchanged — for every unloaded tab,
whatever its list holds. -/
theorem feed_enter_preview (win : Window) (r : RssFeedTab) :
    (∀ it : ListItem, r.list.selectedItem = some it → r.loaded = true →
      r.update win (Msg.key "enter") =
        some ({ r with viewport := r.viewport.setContent it.content,
                       isViewportOpen := true }, none) ∧
      ((r.update win (Msg.key "enter")).map (fun p => p.1.selected)) =
        some r.selected) ∧
    (r.loaded = false → r.update win (Msg.key "enter") = some (r, none)) := by
  obtain ⟨ti, ix, ld, sp, ls, vo, vp, sel⟩ := r
  constructor
  · intro it hsel hl
    have hsel2 : ls.selectedItem = some it := hsel
    have hl2 : ld = true := hl
    cases hl2
    have heq : RssFeedTab.update ⟨ti, ix, true, sp, ls, vo, vp, sel⟩ win
        (Msg.key "enter") =
        some ({ title := ti, index := ix, loaded := true,
                loadingSpinner := sp, list := ls, isViewportOpen := true,
                viewport := vp.setContent it.content, selected := sel },
          none) := by
      cases vo <;>
        simp [RssFeedTab.update, Viewport.setContent, hsel2]
    exact ⟨heq, by rw [heq]; rfl⟩
  · intro hl
    have hl2 : ld = false := hl
    cases hl2
    simp [RssFeedTab.update]

/-- C9 witness: "enter" on the concrete loaded tab shows the selected item's
body and opens the split; "enter" on the freshly constructed (unloaded) tab
leaves it unchanged. -/
theorem feed_enter_preview_witness :
    feedTabLoaded.update sampleWin (Msg.key "enter") =
      some ({ feedTabLoaded with
              viewport := feedTabLoaded.viewport.setContent "body one",
              isViewportOpen := true }, none) ∧
    feedTab0.update sampleWin (Msg.key "enter") = some (feedTab0, none) := by
  constructor
  · have h := ((feed_enter_preview sampleWin feedTabLoaded).1
      (sampleItem.wrapDescription 25) rfl rfl).1
    simpa using h
  · exact (feed_enter_preview sampleWin feedTab0).2 rfl

/-- C10: pressing "enter" on a loaded Feed tab whose item list is empty makes
Update abort (modelled as `none`): the source performs the unchecked type
assertion `r.list.SelectedItem().(simpleList.ListItem)` on the nil interface
that `SelectedItem` returns for an empty list, which panics at run time. The
state is reachable: a fetch-success carrying zero items loads the tab. -/
theorem feed_enter_empty_aborts :
    feedTab0.update sampleWin (Msg.fetchSuccess { title := "A", items := [] })
      = some (feedTab0.loadTab sampleWin [], none) ∧
    (feedTab0.loadTab sampleWin []).loaded = true ∧
    (feedTab0.loadTab sampleWin []).list.items = [] ∧
    (feedTab0.loadTab sampleWin []).update sampleWin (Msg.key "enter")
      = none := by
  refine ⟨by decide, rfl, rfl, by decide⟩

/-- C4: every matching fetch-success event delivered to a Category tab
replaces the tab's item set with the event's items and leaves `loaded = true`
afterwards (so repeated events each take effect and `loaded`, once true,
stays true); on the first such event (`loaded = false`) the list widget is
freshly constructed before the items are set. -/
theorem category_fetch_refresh (m : CategoryModel) (fm : FetchSuccessMessage)
    (hm : fm.title = m.title) :
    (m.update (Msg.fetchSuccess fm)).1.loaded = true ∧
    (m.update (Msg.fetchSuccess fm)).1.list.items = fm.items ∧
    (m.update (Msg.fetchSuccess fm)).2 = none ∧
    (m.loaded = false →
      (m.update (Msg.fetchSuccess fm)).1.list =
        (SimpleList.new m.title m.height false).setItems fm.items) := by
  obtain ⟨w, ht, t, ld, ls⟩ := m
  cases ld <;>
    simp [CategoryModel.update, SimpleList.setItems, SimpleList.new]

/-- C4 witness: two consecutive fetch-success events both take effect on a
Category tab — the second replaces the items set by the first. -/
theorem category_fetch_refresh_witness :
    (catTab0.update (Msg.fetchSuccess
        { title := "Cat", items := [catItem 1] })).1.loaded = true ∧
    (catTab0.update (Msg.fetchSuccess
        { title := "Cat", items := [catItem 1] })).1.list.items = [catItem 1] ∧
    (catTab1.update (Msg.fetchSuccess
        { title := "Cat", items := [catItem 2, catItem 3] })).1.list.items =
      [catItem 2, catItem 3] :=
  ⟨(category_fetch_refresh catTab0 { title := "Cat", items := [catItem 1] }
      rfl).1,
   (category_fetch_refresh catTab0 { title := "Cat", items := [catItem 1] }
      rfl).2.1,
   (category_fetch_refresh catTab1
      { title := "Cat", items := [catItem 2, catItem 3] } rfl).2.1⟩

/-- C5: on a loaded Category tab with a non-empty list, the Delete key emits a
delete request for the currently selected item's identity and moves the
cursor: to 0 when exactly one item remains pre-deletion, and to
`index % (count - 1)` otherwise. -/
theorem category_delete_cursor (m : CategoryModel)
    (h1 : m.loaded = true) (h2 : m.list.isEmpty = false) :
    (m.update (Msg.key "d")).2 =
      some (Cmd.deleteItem BackendKind.feed m.list.selectedItem.name) ∧
    (m.list.items.length = 1 → (m.update (Msg.key "d")).1.list.index = 0) ∧
    (1 < m.list.items.length →
      (m.update (Msg.key "d")).1.list.index =
        m.list.index % (m.list.items.length - 1)) := by
  refine ⟨?_, fun hn => ?_, fun hn => ?_⟩
  · by_cases hc : m.list.items.length = 1 <;>
      simp +decide [CategoryModel.update, h1, h2, hc, SimpleList.setIndex]
  · simp +decide [CategoryModel.update, h1, h2, hn, SimpleList.setIndex]
  · have hc : ¬m.list.items.length = 1 := by omega
    simp +decide [CategoryModel.update, h1, h2, hc, SimpleList.setIndex]

/-- C5 witness: Delete on a 3-item list with cursor at 2 emits the delete
request for the third feed and sets the cursor to 2 % 2 = 0; Delete on a
1-item list sets the cursor to 0. -/
theorem category_delete_cursor_witness :
    (catTab3i2.update (Msg.key "d")).2 =
      some (Cmd.deleteItem BackendKind.feed "feed3") ∧
    (catTab3i2.update (Msg.key "d")).1.list.index = 0 ∧
    (catTab1.update (Msg.key "d")).2 =
      some (Cmd.deleteItem BackendKind.feed "feed1") ∧
    (catTab1.update (Msg.key "d")).1.list.index = 0 := by
  refine ⟨?_, ?_, ?_, ?_⟩
  · have h := (category_delete_cursor catTab3i2 rfl rfl).1
    simpa using h
  · have h := (category_delete_cursor catTab3i2 rfl rfl).2.2 (by decide)
    simpa using h
  · have h := (category_delete_cursor catTab1 rfl rfl).1
    simpa using h
  · have h := (category_delete_cursor catTab1 rfl rfl).2.1 (by decide)
    simpa using h

/-- C6: on a loaded Category tab whose list is empty, each of the Select
("enter"), Edit ("e") and Delete ("d") keys is a guarded no-op: the state is
returned unchanged and no command is emitted. -/
theorem category_empty_noop (m : CategoryModel)
    (h1 : m.loaded = true) (h2 : m.list.items = []) :
    m.update (Msg.key "enter") = (m, none) ∧
    m.update (Msg.key "e") = (m, none) ∧
    m.update (Msg.key "d") = (m, none) := by
  obtain ⟨w, ht, t, ld, ls⟩ := m
  cases h1
  have h3 : ls.items = [] := h2
  have hup : ls.update (Msg.key "d") = (ls, none) := rfl
  refine ⟨?_, ?_, ?_⟩ <;>
    simp +decide [CategoryModel.update, SimpleList.isEmpty, hup, h3]

/-- C6 witness: the no-ops hold at a concrete loaded, empty Category tab. -/
theorem category_empty_noop_witness :
    catTabEmpty.update (Msg.key "enter") = (catTabEmpty, none) ∧
    catTabEmpty.update (Msg.key "e") = (catTabEmpty, none) ∧
    catTabEmpty.update (Msg.key "d") = (catTabEmpty, none) :=
  category_empty_noop catTabEmpty rfl rfl
